import Mathlib

/-!
Shallow embedding of the donation-tracking FastAPI backend
(app/models.py, app/jwt.py, app/main.py) and proofs about its
authentication and payment-webhook behavior.

Conventions of the embedding:
- Database rows are Lean structures; the database is a `DBState` of lists.
  `result.first()` is `List.find?`; `session.get(Model, pk)` is a find on
  the primary-key column; an `INSERT` + commit appends to the list.
- Machine time is `Nat` seconds; handlers that read the clock take `now`.
- Monetary amounts computed by Python float division `amount / 100` are
  modelled as exact rationals (the claims only divide by 100).
- A raised `HTTPException(code, detail)` is a constructor of the result
  type; an uncaught Python exception (`KeyError`, `TypeError`) is
  `serverError` (FastAPI turns it into an HTTP 500).
-/

/-- Row of the `user` table (app/models.py, `User`). `password` stores the hash. -/
structure User where
  id : Nat
  username : String
  email : String
  password : String
deriving DecidableEq

/-- Row of the `cause` table (app/models.py, `Cause`). -/
structure Cause where
  id : Nat
  name : String
  tagline : String
  description : String
  end_date : Nat
  banner_image : Option String
  cover_image : Option String
deriving DecidableEq

/-- Row of the `donation` table (app/models.py, `Donation`). -/
structure Donation where
  id : Option Nat
  amount : Rat
  created_at : Nat
  donor_id : Nat
  cause_id : Nat
deriving DecidableEq

/-- The persisted state the handlers read and write. -/
structure DBState where
  users : List User
  causes : List Cause
  donations : List Donation
deriving DecidableEq

/-- The process-wide signing secret, loaded from the environment at startup
(app/settings.py `SECRET_KEY`; a fixed opaque constant in the embedding). -/
def SECRET_KEY : String := "process-secret"

/-- app/jwt.py line 28. -/
def ACCESS_TOKEN_EXPIRE_MINUTES : Nat := 30

/-- A JSON claim value: the payloads built by this program hold the integer
`user_id` and the formatted string `expire`. -/
inductive ClaimVal where
  | nat (n : Nat)
  | str (s : String)
deriving DecidableEq

/-- A JWT as the jose library sees it: a claim set signed with a symmetric
secret. The encoding itself is opaque; what matters is which claims are
present and which secret signed them. -/
structure JoseToken where
  claims : List (String × ClaimVal)
  secret : String
deriving DecidableEq

/-- Models `expire.strftime("%Y-%m-%d %H:%M:%S")` (app/jwt.py line 34): an
opaque human-readable rendering of the timestamp. The essential point is
that the result is a *string* stored under the nonstandard key `"expire"`,
not a numeric registered `"exp"` claim. -/
def strftimeModel (t : Nat) : String := "ts:" ++ toString t

/-- app/jwt.py `create_access_token`: copy the data, add an `"expire"`
claim holding now + 30 minutes formatted as a string, sign with the
process secret. -/
def create_access_token (data : List (String × ClaimVal)) (now : Nat) : JoseToken :=
  { claims := data ++ [("expire",
      ClaimVal.str (strftimeModel (now + ACCESS_TOKEN_EXPIRE_MINUTES * 60)))],
    secret := SECRET_KEY }

/-- Models `jose.jwt.decode(token, secret, algorithms=ALGORITHM)`: verifies
the signature against `secret`, and validates the registered `"exp"` claim
when (and only when) it is present — an expired `"exp"` raises
`ExpiredSignatureError` (a `JWTError`). Custom claims such as `"expire"`
are returned but never validated by the library. -/
def jose_decode (tok : JoseToken) (secret : String) (now : Nat) :
    Option (List (String × ClaimVal)) :=
  if tok.secret == secret then
    match tok.claims.lookup "exp" with
    | some (ClaimVal.nat e) => if now < e then some tok.claims else none
    | _ => some tok.claims
  else
    none

/-- Outcome of `verify_token_access`: return a `DataToken`, raise the
supplied `credentials_exception` (401), or escape with an uncaught
exception (500). -/
inductive TokenVerifyResult where
  | ok (id : String)
  | credentialsError
  | validationError
deriving DecidableEq

/-- app/jwt.py `verify_token_access`: decode with the process secret (any
`JWTError` is caught and re-raised as the supplied
`credentials_exception`); an absent `"user_id"` claim also raises the
`credentials_exception` (an `HTTPException` is not a `JWTError`, so it
propagates out of the `try`). Then `DataToken(id=id)` validates the claim
against `id: Optional[str]`: under pydantic v2 (this repo uses
`model_dump` and `pydantic_settings`, which require v2) an *integer*
`user_id` — the only kind this app ever issues — is not coerced to `str`
but raises a `pydantic.ValidationError`, which is not a `JWTError` and
escapes uncaught (HTTP 500); a *string* `user_id` constructs the
`DataToken` and is returned. -/
def verify_token_access (tok : JoseToken) (now : Nat) : TokenVerifyResult :=
  match jose_decode tok SECRET_KEY now with
  | none => TokenVerifyResult.credentialsError
  | some claims =>
    match claims.lookup "user_id" with
    | none => TokenVerifyResult.credentialsError
    | some (ClaimVal.nat _) => TokenVerifyResult.validationError
    | some (ClaimVal.str s) => TokenVerifyResult.ok s

/-- Outcome of the auth-guard dependency `get_current_user`. -/
inductive AuthResult where
  | user (u : User)
  | unauthorized
  | serverError
deriving DecidableEq

/-- app/jwt.py `get_current_user`: call `verify_token_access` (its
`credentials_exception` surfaces as 401; its uncaught `ValidationError`
as 500), then `SELECT ... WHERE User.id == token.id` — `token.id` is the
string the `DataToken` holds, compared against the integer primary key
under SQLite type affinity like `getCause` — and return
`existing_user[0]`. When the lookup finds no row, `.first()` returns
`None` and the subscript `existing_user[0]` raises an uncaught
`TypeError` — modelled as `serverError` (HTTP 500). -/
def get_current_user (st : DBState) (tok : JoseToken) (now : Nat) : AuthResult :=
  match verify_token_access tok now with
  | TokenVerifyResult.credentialsError => AuthResult.unauthorized
  | TokenVerifyResult.validationError => AuthResult.serverError
  | TokenVerifyResult.ok s =>
    match st.users.find? (fun u => s == toString u.id) with
    | none => AuthResult.serverError
    | some u => AuthResult.user u

/-- Modelled from the spec: `app/utils.py` (imported by app/main.py for
`hash_pass` and `verify_password`) is not among the provided sources. The
spec describes the Password Hasher as a one-way hash plus verify for
stored credentials; modelled as an injective tagging of the password. -/
def hash_pass (p : String) : String := "hashed$" ++ p

/-- Modelled from the spec: verify checks a plaintext password against a
stored hash by re-hashing and comparing. -/
def verify_password (p : String) (hashed : String) : Bool :=
  hash_pass p == hashed

/-- Outcome of the `/login/` route. -/
inductive LoginResult where
  | token (t : JoseToken)
  | badRequest (detail : String)
  | unauthorized (detail : String)
deriving DecidableEq

/-- app/main.py lines 50-64, the `/login/` route (its Python function is
the second one named `register`): look the user up by username; if absent
raise `HTTPException(400, "Invalid credentials")`; if the password does
not verify raise `HTTPException(401, "Invalid credentials")`; otherwise
issue a token for `{"user_id": user.id}`. -/
def login (st : DBState) (username password : String) (now : Nat) : LoginResult :=
  match st.users.find? (fun u => u.username == username) with
  | none => LoginResult.badRequest "Invalid credentials"
  | some u =>
    if verify_password password u.password then
      LoginResult.token (create_access_token [("user_id", ClaimVal.nat u.id)] now)
    else
      LoginResult.unauthorized "Invalid credentials"

/-- The `data.object` part of a Stripe event as the handler reads it:
`metadata` (string-keyed string map), `amount` in minor units, and
`billing_details.email`. -/
structure EventObject where
  metadata : List (String × String)
  amount : Nat
  billing_details_email : String
deriving DecidableEq

/-- A parsed Stripe webhook event: provider event id, event type, and the
charge object. -/
structure StripeEvent where
  eventId : String
  type : String
  obj : EventObject
deriving DecidableEq

/-- An inbound webhook delivery, after abstracting the raw bytes:
`parsedBody` is the JSON parse of the body (`none` when unparsable) and
`sigValid` says whether the `stripe-signature` header verifies the raw
bytes against the configured endpoint secret. -/
structure WebhookRequest where
  parsedBody : Option StripeEvent
  sigValid : Bool
deriving DecidableEq

/-- Result of `stripe.Webhook.construct_event`. -/
inductive ConstructResult where
  | ok (e : StripeEvent)
  | invalidPayload
  | badSignature
deriving DecidableEq

/-- Models `stripe.Webhook.construct_event(payload, sig_header, secret)`:
the library verifies the signature over the raw bytes first
(`SignatureVerificationError`), then JSON-parses the body (`ValueError`). -/
def construct_event (req : WebhookRequest) : ConstructResult :=
  if req.sigValid then
    match req.parsedBody with
    | some e => ConstructResult.ok e
    | none => ConstructResult.invalidPayload
  else
    ConstructResult.badSignature

/-- HTTP outcome of the webhook handler. `serverError` is an uncaught
Python exception (FastAPI responds 500). -/
inductive HttpResult where
  | ok
  | badRequest (detail : String)
  | notFound (detail : String)
  | serverError
deriving DecidableEq

/-- Models `session.get(Cause, data["id"])` where `data["id"]` is the
metadata string: the string bind parameter is compared against the integer
primary key under SQLite type affinity, so a numeric string matches the
row whose id it denotes. -/
def getCause (causes : List Cause) (key : String) : Option Cause :=
  causes.find? (fun c => key == toString c.id)

/-- app/main.py lines 199-238, `stripe_webhook`. Verify and parse via
`construct_event` (400 on either failure). On a `"charge.succeeded"`
event: read `metadata["id"]` (a missing key raises `KeyError` — 500),
get the Cause by that id, `SELECT` the User by billing email and take
`user[0]` (a missing user makes `.first()` return `None`, so the
subscript raises `TypeError` — 500, reached before the not-found check),
then `if not cause or not user` raise 404, else insert one Donation with
`amount / 100` and commit. Any other event type falls through to the
final `Response(status_code=200)`. -/
def stripe_webhook (st : DBState) (req : WebhookRequest) (now : Nat) :
    HttpResult × DBState :=
  match construct_event req with
  | ConstructResult.invalidPayload => (HttpResult.badRequest "Invalid payload", st)
  | ConstructResult.badSignature => (HttpResult.badRequest "Invalid signature", st)
  | ConstructResult.ok event =>
    if event.type == "charge.succeeded" then
      match event.obj.metadata.lookup "id" with
      | none => (HttpResult.serverError, st)
      | some key =>
        let cause? := getCause st.causes key
        match st.users.find? (fun u => u.email == event.obj.billing_details_email) with
        | none => (HttpResult.serverError, st)
        | some user =>
          match cause? with
          | none => (HttpResult.notFound "Cause or User not found", st)
          | some cause =>
            let d : Donation :=
              { id := some (st.donations.length + 1)
                donor_id := user.id
                amount := (event.obj.amount : Rat) / 100
                created_at := now
                cause_id := cause.id }
            (HttpResult.ok, { st with donations := st.donations ++ [d] })
    else
      (HttpResult.ok, st)

/-- The metadata dict `{"cause_id": id}` that the checkout initiator
embeds in the provider session (app/main.py line 287). -/
def checkoutMetadata (causeId : Nat) : List (String × String) :=
  [("cause_id", toString causeId)]

/-- The payment provider's behavior when asked to create a hosted checkout
session for some metadata: the hosted URL, or an error message (the
handler catches any exception). -/
def ProviderBehavior : Type := List (String × String) → Except String String

/-- Outcome of `create_checkout_session`. -/
inductive CheckoutResult where
  | redirect (url : String)
  | notFound (detail : String)
  | badRequest (detail : String)
deriving DecidableEq

/-- app/main.py lines 264-291, `create_checkout_session`: `SELECT` the
cause by id; if absent raise 404 "Cause not found"; otherwise call
`stripe.checkout.Session.create(..., metadata={"cause_id": id})` and
redirect (303) to its URL, turning any provider exception into a 400.
The second component records the metadata of the provider call, `none`
when the provider was never contacted. -/
def create_checkout_session (st : DBState) (causeId : Nat)
    (provider : ProviderBehavior) :
    CheckoutResult × Option (List (String × String)) :=
  match st.causes.find? (fun c => c.id == causeId) with
  | none => (CheckoutResult.notFound "Cause not found", none)
  | some _ =>
    match provider (checkoutMetadata causeId) with
    | Except.ok url => (CheckoutResult.redirect url, some (checkoutMetadata causeId))
    | Except.error msg => (CheckoutResult.badRequest msg, some (checkoutMetadata causeId))

/-- Fixture: a registered user whose stored password is the hash of
"correct-horse". -/
def donorUser : User :=
  { id := 1, username := "alice", email := "donor@example.com",
    password := hash_pass "correct-horse" }

/-- Fixture: a cause with id 7. -/
def waterCause : Cause :=
  { id := 7, name := "Clean Water", tagline := "wells for all",
    description := "dig wells", end_date := 1767225600,
    banner_image := none, cover_image := none }

/-- Fixture: one user, one cause, no donations yet. -/
def baseState : DBState :=
  { users := [donorUser], causes := [waterCause], donations := [] }

/-- Fixture: empty store. -/
def emptyState : DBState := { users := [], causes := [], donations := [] }

/-- Fixture: the cause exists but no user does. -/
def causeOnlyState : DBState :=
  { users := [], causes := [waterCause], donations := [] }

/-- Fixture: the user exists but no cause does. -/
def userOnlyState : DBState :=
  { users := [donorUser], causes := [], donations := [] }

/-- Fixture: a charge.succeeded event for cause 7, 2500 minor units, billed
to the fixture user's email, with metadata under the key "id" as the
handler expects. -/
def chargeEvent : StripeEvent :=
  { eventId := "evt_100", type := "charge.succeeded",
    obj := { metadata := [("id", "7")], amount := 2500,
             billing_details_email := "donor@example.com" } }

/-- Fixture: delivery of `chargeEvent` with a valid signature. -/
def chargeReq : WebhookRequest := { parsedBody := some chargeEvent, sigValid := true }

/-- C1: a signature-valid charge.succeeded event whose metadata cause id
resolves to an existing Cause and whose billing email resolves to an
existing User makes the handler insert exactly one Donation with
amount = minor units / 100, referencing that user and cause, and return
HTTP 200. -/
theorem c1_charge_inserts_one_donation
    (st : DBState) (req : WebhookRequest) (e : StripeEvent) (key : String)
    (c : Cause) (u : User) (now : Nat)
    (hok : construct_event req = ConstructResult.ok e)
    (htype : e.type = "charge.succeeded")
    (hkey : e.obj.metadata.lookup "id" = some key)
    (hcause : getCause st.causes key = some c)
    (huser : st.users.find? (fun x => x.email == e.obj.billing_details_email) = some u) :
    stripe_webhook st req now =
      (HttpResult.ok,
       { st with donations := st.donations ++
           [{ id := some (st.donations.length + 1),
              amount := (e.obj.amount : Rat) / 100,
              created_at := now,
              donor_id := u.id,
              cause_id := c.id }] }) := by
  simp [stripe_webhook, hok, htype, hkey, hcause, huser]

/-- C1 witness: on the concrete fixture (cause 7, amount 2500) the handler
returns 200 and appends the single Donation of 25 currency units. -/
theorem c1_charge_inserts_one_donation_witness :
    ((2500 : Rat) / 100 = 25) ∧
    stripe_webhook baseState chargeReq 0 =
      (HttpResult.ok,
       { baseState with donations := baseState.donations ++
           [{ id := some (baseState.donations.length + 1),
              amount := ((chargeEvent.obj.amount : Rat)) / 100,
              created_at := 0,
              donor_id := donorUser.id,
              cause_id := waterCause.id }] }) :=
  ⟨by norm_num,
   c1_charge_inserts_one_donation baseState chargeReq chargeEvent "7" waterCause donorUser 0
     (by decide) (by decide) (by decide) (by decide) (by decide)⟩

/-- C2: the handler has no deduplication on the provider event id, so
redelivering the identical signature-valid charge.succeeded event
inserts a second Donation: one row after the first delivery, two after
the second. -/
theorem c2_redelivery_creates_second_donation :
    (stripe_webhook baseState chargeReq 0).2.donations.length = 1 ∧
    (stripe_webhook (stripe_webhook baseState chargeReq 0).2 chargeReq 0).2.donations.length = 2 := by
  decide

/-- C3: the round trip verify(issue(id)) is broken on both halves. The
tokens this app issues carry an integer "user_id" claim, so
`DataToken(id=<int>)` raises an uncaught pydantic ValidationError and
verification never returns the id — neither before the 30-minute expiry
(at 60 s) nor after it (at 100000 s), where the failure is the same
ValidationError, not expiry enforcement. Independently, expiry is never
enforced: the expiry lives only in the custom string claim "expire",
which the jose decoder does not validate (no registered numeric "exp"
claim is set), so a token whose "user_id" happens to be a string still
verifies long after its expiry has elapsed. -/
theorem c3_token_roundtrip_broken :
    0 + ACCESS_TOKEN_EXPIRE_MINUTES * 60 ≤ 100000 ∧
    verify_token_access (create_access_token [("user_id", ClaimVal.nat 5)] 0) 60 =
      TokenVerifyResult.validationError ∧
    verify_token_access (create_access_token [("user_id", ClaimVal.nat 5)] 0) 100000 =
      TokenVerifyResult.validationError ∧
    verify_token_access (create_access_token [("user_id", ClaimVal.str "5")] 0) 100000 =
      TokenVerifyResult.ok "5" := by
  decide

/-- Helper: the checkout metadata holds its value only under "cause_id",
so the handler's lookup of "id" finds nothing. -/
theorem checkoutMetadata_lookup_id (causeId : Nat) :
    (checkoutMetadata causeId).lookup "id" = none := rfl

/-- C4: the checkout initiator embeds the cause id under the metadata key
"cause_id", while the webhook handler reads the key "id"; on any
signature-valid charge.succeeded event carrying exactly the embedded
metadata, the lookup raises KeyError (HTTP 500) and no Donation is
recorded. -/
theorem c4_metadata_key_mismatch
    (st : DBState) (req : WebhookRequest) (e : StripeEvent)
    (causeId : Nat) (c0 : Cause) (provider : ProviderBehavior) (now : Nat)
    (hok : construct_event req = ConstructResult.ok e)
    (htype : e.type = "charge.succeeded")
    (hmeta : e.obj.metadata = checkoutMetadata causeId)
    (hc : st.causes.find? (fun c => c.id == causeId) = some c0) :
    (create_checkout_session st causeId provider).2 = some (checkoutMetadata causeId) ∧
    (checkoutMetadata causeId).lookup "id" = none ∧
    stripe_webhook st req now = (HttpResult.serverError, st) := by
  refine ⟨?_, checkoutMetadata_lookup_id causeId, ?_⟩
  · simp only [create_checkout_session, hc]
    cases provider (checkoutMetadata causeId) <;> rfl
  · simp [stripe_webhook, hok, htype, hmeta, checkoutMetadata_lookup_id causeId]

/-- Fixture: a charge.succeeded event whose metadata is exactly what the
checkout initiator embeds for cause 7. -/
def checkoutEvent : StripeEvent :=
  { eventId := "evt_700", type := "charge.succeeded",
    obj := { metadata := checkoutMetadata 7, amount := 2500,
             billing_details_email := "donor@example.com" } }

/-- Fixture: delivery of `checkoutEvent` with a valid signature. -/
def checkoutReq : WebhookRequest := { parsedBody := some checkoutEvent, sigValid := true }

/-- C4 witness: on the concrete fixture, checkout for cause 7 sends
metadata keyed "cause_id", the handler's "id" lookup fails, and the
delivery ends in a server error with no new Donation. -/
theorem c4_metadata_key_mismatch_witness :
    (create_checkout_session baseState 7 (fun _ => Except.ok "hosted-url")).2 =
      some (checkoutMetadata 7) ∧
    (checkoutMetadata 7).lookup "id" = none ∧
    stripe_webhook baseState checkoutReq 0 = (HttpResult.serverError, baseState) :=
  c4_metadata_key_mismatch baseState checkoutReq checkoutEvent 7 waterCause
    (fun _ => Except.ok "hosted-url") 0 (by decide) (by decide) (by decide) (by decide)

/-- Fixture: a charge.succeeded event for cause 7 billed to an email that
matches no user. -/
def ghostEvent : StripeEvent :=
  { eventId := "evt_500", type := "charge.succeeded",
    obj := { metadata := [("id", "7")], amount := 2500,
             billing_details_email := "ghost@example.com" } }

/-- Fixture: delivery of `ghostEvent` with a valid signature. -/
def ghostReq : WebhookRequest := { parsedBody := some ghostEvent, sigValid := true }

/-- C5: when the billing email matches no user, `user.first()` is None and
the subscript `user[0]` raises TypeError before the not-found check, so
the handler ends in HTTP 500, not the claimed 404 — though still with no
Donation created and no success status. The missing-cause case (with an
existing user) does return the 404. -/
theorem c5_missing_user_crashes_instead_of_404 :
    stripe_webhook causeOnlyState ghostReq 0 = (HttpResult.serverError, causeOnlyState) ∧
    HttpResult.serverError ≠ HttpResult.notFound "Cause or User not found" ∧
    stripe_webhook userOnlyState chargeReq 0 =
      (HttpResult.notFound "Cause or User not found", userOnlyState) := by
  refine ⟨by decide, by decide, by decide⟩

/-- Fixture: a token signed with the process secret whose "user_id" claim
is the *string* "5" — the only claim shape that passes the
`DataToken(id: Optional[str])` validation and thus verifies successfully
— while no user with id 5 is stored in `emptyState`. -/
def orphanToken : JoseToken := create_access_token [("user_id", ClaimVal.str "5")] 0

/-- C6 counterexample: a token that verifies successfully (identity "5")
against a store with no matching user makes the auth guard crash with a
server error (the unguarded `existing_user[0]` subscript), which is
distinguishable from the 401 unauthorized signal used for invalid
tokens. -/
theorem c6_unknown_user_not_unauthorized :
    verify_token_access orphanToken 10 = TokenVerifyResult.ok "5" ∧
    get_current_user emptyState orphanToken 10 = AuthResult.serverError ∧
    AuthResult.serverError ≠ AuthResult.unauthorized := by
  refine ⟨by decide, by decide, by decide⟩

/-- C6 amended: for every bearer token that verifies successfully (which
requires a string "user_id" claim — the integer-id tokens the app itself
issues already fail inside verification with an uncaught
ValidationError) but whose identity claim matches no persisted user, the
auth guard raises an unhandled error (HTTP 500) from the unguarded
`existing_user[0]` subscript — it neither returns a user nor the 401
unauthorized signal. -/
theorem c6_unknown_user_server_error
    (st : DBState) (tok : JoseToken) (now : Nat) (s : String)
    (hver : verify_token_access tok now = TokenVerifyResult.ok s)
    (hnone : st.users.find? (fun u => s == toString u.id) = none) :
    get_current_user st tok now = AuthResult.serverError := by
  simp [get_current_user, hver, hnone]

/-- C6 witness: the amended statement at the concrete orphan token and
empty store. -/
theorem c6_unknown_user_server_error_witness :
    get_current_user emptyState orphanToken 10 = AuthResult.serverError :=
  c6_unknown_user_server_error emptyState orphanToken 10 "5" (by decide) (by decide)

/-- C7 counterexample: with the fixture store (user "alice" exists), a
wrong-password login for "alice" yields a 401 while the same wrong
password for the nonexistent "nobody" yields a 400 — the two runs are
distinguishable, leaking username existence. -/
theorem c7_login_leaks_username_existence :
    login baseState "alice" "wrong-password" 0 =
      LoginResult.unauthorized "Invalid credentials" ∧
    login baseState "nobody" "wrong-password" 0 =
      LoginResult.badRequest "Invalid credentials" ∧
    LoginResult.unauthorized "Invalid credentials" ≠
      LoginResult.badRequest "Invalid credentials" := by
  refine ⟨by decide, by decide, by decide⟩

/-- C7 amended: a failed login carries the detail "Invalid credentials" in
both cases, but the HTTP status differs — 400 when the username does not
exist, 401 when the username exists and the password is wrong — so the
two runs are distinguishable to the caller; a login with correct
credentials returns a token signed with the process secret that carries
the stored user id as an *integer* "user_id" claim, but the app's own
verifier then raises an uncaught pydantic ValidationError on that
integer claim (at any verification time) rather than returning the id. -/
theorem c7_login_status_distinguishes_and_roundtrip
    (st : DBState) (u : User) (otherName pwdWrong pwdRight : String) (now tv : Nat)
    (hu : st.users.find? (fun x => x.username == u.username) = some u)
    (hwrong : verify_password pwdWrong u.password = false)
    (hright : verify_password pwdRight u.password = true)
    (hno : st.users.find? (fun x => x.username == otherName) = none) :
    login st u.username pwdWrong now = LoginResult.unauthorized "Invalid credentials" ∧
    login st otherName pwdWrong now = LoginResult.badRequest "Invalid credentials" ∧
    login st u.username pwdRight now =
      LoginResult.token (create_access_token [("user_id", ClaimVal.nat u.id)] now) ∧
    verify_token_access (create_access_token [("user_id", ClaimVal.nat u.id)] now) tv =
      TokenVerifyResult.validationError := by
  refine ⟨?_, ?_, ?_, ?_⟩
  · simp [login, hu, hwrong]
  · simp [login, hno]
  · simp [login, hu, hright]
  · rfl

/-- C7 witness: the amended statement at the concrete fixture store, user
"alice", wrong password "wrong-password", right password
"correct-horse", and verification time 999999. -/
theorem c7_login_status_distinguishes_and_roundtrip_witness :
    login baseState donorUser.username "wrong-password" 0 =
      LoginResult.unauthorized "Invalid credentials" ∧
    login baseState "nobody" "wrong-password" 0 =
      LoginResult.badRequest "Invalid credentials" ∧
    login baseState donorUser.username "correct-horse" 0 =
      LoginResult.token (create_access_token [("user_id", ClaimVal.nat donorUser.id)] 0) ∧
    verify_token_access (create_access_token [("user_id", ClaimVal.nat donorUser.id)] 0)
      999999 = TokenVerifyResult.validationError :=
  c7_login_status_distinguishes_and_roundtrip baseState donorUser "nobody"
    "wrong-password" "correct-horse" 0 999999 (by decide) (by decide) (by decide) (by decide)

/-- C8: a webhook delivery whose signature header does not verify is
rejected with HTTP 400 "Invalid signature" and the persisted state is
returned unchanged, whatever the JSON body holds. -/
theorem c8_bad_signature_rejected_no_mutation
    (st : DBState) (req : WebhookRequest) (now : Nat)
    (hsig : req.sigValid = false) :
    stripe_webhook st req now = (HttpResult.badRequest "Invalid signature", st) := by
  simp [stripe_webhook, construct_event, hsig]

/-- Fixture: the well-formed charge event delivered with a signature that
does not verify. -/
def forgedReq : WebhookRequest := { parsedBody := some chargeEvent, sigValid := false }

/-- C8 witness: the concrete forged delivery (well-formed body) is
rejected with 400 and the fixture state is unchanged. -/
theorem c8_bad_signature_rejected_no_mutation_witness :
    stripe_webhook baseState forgedReq 0 =
      (HttpResult.badRequest "Invalid signature", baseState) :=
  c8_bad_signature_rejected_no_mutation baseState forgedReq 0 (by decide)

/-- C9: a signature-valid event of any type other than "charge.succeeded"
falls through to the final 200 response with the state unchanged. -/
theorem c9_other_event_acknowledged_unchanged
    (st : DBState) (req : WebhookRequest) (e : StripeEvent) (now : Nat)
    (hok : construct_event req = ConstructResult.ok e)
    (htype : e.type ≠ "charge.succeeded") :
    stripe_webhook st req now = (HttpResult.ok, st) := by
  simp [stripe_webhook, hok, htype]

/-- Fixture: a charge.failed event. -/
def failedEvent : StripeEvent :=
  { eventId := "evt_900", type := "charge.failed",
    obj := { metadata := [("id", "7")], amount := 2500,
             billing_details_email := "donor@example.com" } }

/-- Fixture: delivery of `failedEvent` with a valid signature. -/
def failedReq : WebhookRequest := { parsedBody := some failedEvent, sigValid := true }

/-- C9 witness: the concrete charge.failed delivery is acknowledged with
200 and the fixture state is unchanged. -/
theorem c9_other_event_acknowledged_unchanged_witness :
    stripe_webhook baseState failedReq 0 = (HttpResult.ok, baseState) :=
  c9_other_event_acknowledged_unchanged baseState failedReq failedEvent 0
    (by decide) (by decide)

/-- C10: a checkout-initiation request for a cause id matching no stored
Cause fails with 404 "Cause not found" and the provider is never
contacted (no provider call is recorded). -/
theorem c10_checkout_missing_cause_not_found_no_provider_call
    (st : DBState) (causeId : Nat) (provider : ProviderBehavior)
    (hnone : st.causes.find? (fun c => c.id == causeId) = none) :
    create_checkout_session st causeId provider =
      (CheckoutResult.notFound "Cause not found", none) := by
  simp [create_checkout_session, hnone]

/-- C10 witness: against the empty store, checkout for cause 7 returns the
404 and records no provider call. -/
theorem c10_checkout_missing_cause_not_found_no_provider_call_witness :
    create_checkout_session emptyState 7 (fun _ => Except.ok "hosted-url") =
      (CheckoutResult.notFound "Cause not found", none) :=
  c10_checkout_missing_cause_not_found_no_provider_call emptyState 7
    (fun _ => Except.ok "hosted-url") (by decide)
